import Mathlib

/-!
Verification development for the dabaaGO chess-puzzle trainer.

The definitions below are a shallow embedding of the core of the program:
the scoring/rating utilities (`src/utils/scoring.ts`), the puzzle-solving
state machine (`src/hooks/usePuzzle.ts`, the later variant that tracks
`wrongMoveCount`), the blitz-mode stats updates (`src/modes/BlitzMode.tsx`),
the local store with export/import (`src/services/localStore.ts`), and the
profile/badge service (`src/services/profileService.ts`).

JavaScript numbers are modelled by exact rationals, except where IEEE
special values (NaN, infinities) are observable: there the type `JSNum`
makes the special values explicit.  `Math.round` in JavaScript rounds
half toward positive infinity, which agrees with the Mathlib `round`
(defined as `⌊x + 1/2⌋`), so `round` is used directly.
-/

namespace DabaaGO

/-! ## Leagues and difficulties (`src/types/index.ts`) -/

inductive League where
  | stone | bronze | silver | gold | platinum | diamond | master
deriving DecidableEq, Repr

inductive PlayerLevel where
  | beginner | amateur
deriving DecidableEq, Repr

inductive Difficulty where
  | simple | medium | hard | ultra
deriving DecidableEq, Repr

/-! ## `getLeagueFromElo` (`src/utils/scoring.ts`, lines 68-76) -/

def getLeagueFromElo (elo : ℤ) : League :=
  if elo < 800 then .stone
  else if elo < 1000 then .bronze
  else if elo < 1200 then .silver
  else if elo < 1400 then .gold
  else if elo < 1600 then .platinum
  else if elo < 1800 then .diamond
  else .master

/-! ## JavaScript number model for `calculatePuzzleScore`

`calculatePuzzleScore` divides `timeTaken / timeLimit` without guarding
`timeLimit = 0`, so IEEE special values can arise and flow through
`Math.min` / `Math.max` / `Math.round`.  `JSNum` models a JavaScript
number as either NaN, an infinity, or an exact rational. -/

inductive JSNum where
  | nan
  | posInf
  | negInf
  | num (q : ℚ)
deriving DecidableEq, Repr

namespace JSNum

/-- IEEE division of two finite values, as JavaScript computes `a / b`. -/
def divF (a b : ℚ) : JSNum :=
  if b = 0 then
    if a = 0 then .nan
    else if a > 0 then .posInf
    else .negInf
  else .num (a / b)

/-- `c - x` for a finite `c` (used for `1 - timeRatio`). -/
def subL (c : ℚ) : JSNum → JSNum
  | .nan => .nan
  | .posInf => .negInf
  | .negInf => .posInf
  | .num q => .num (c - q)

/-- `c * x` for a finite `c` (used for `3 * (1 - timeRatio)`). -/
def mulL (c : ℚ) : JSNum → JSNum
  | .nan => .nan
  | .posInf => if c > 0 then .posInf else if c < 0 then .negInf else .nan
  | .negInf => if c > 0 then .negInf else if c < 0 then .posInf else .nan
  | .num q => .num (c * q)

/-- JavaScript `x + y` (NaN absorbs; opposite infinities give NaN). -/
def add : JSNum → JSNum → JSNum
  | .nan, _ => .nan
  | _, .nan => .nan
  | .posInf, .negInf => .nan
  | .posInf, _ => .posInf
  | .negInf, .posInf => .nan
  | .negInf, _ => .negInf
  | .num _, .posInf => .posInf
  | .num _, .negInf => .negInf
  | .num p, .num q => .num (p + q)

/-- JavaScript `Math.min` (NaN absorbs). -/
def min : JSNum → JSNum → JSNum
  | .nan, _ => .nan
  | _, .nan => .nan
  | .negInf, _ => .negInf
  | _, .negInf => .negInf
  | .posInf, y => y
  | x, .posInf => x
  | .num p, .num q => .num (Min.min p q)

/-- JavaScript `Math.max` (NaN absorbs). -/
def max : JSNum → JSNum → JSNum
  | .nan, _ => .nan
  | _, .nan => .nan
  | .posInf, _ => .posInf
  | _, .posInf => .posInf
  | .negInf, y => y
  | x, .negInf => x
  | .num p, .num q => .num (Max.max p q)

/-- JavaScript `Math.round` (half toward positive infinity on finites). -/
def roundJS : JSNum → JSNum
  | .nan => .nan
  | .posInf => .posInf
  | .negInf => .negInf
  | .num q => .num (round q)

/-- JavaScript `Math.round(x * 10) / 10` (one decimal place). -/
def round1 : JSNum → JSNum
  | .nan => .nan
  | .posInf => .posInf
  | .negInf => .negInf
  | .num q => .num ((round (q * 10) : ℚ) / 10)

end JSNum

/-! ## `calculatePuzzleScore` (`src/utils/scoring.ts`, lines 8-42) -/

/-- The `score` field of the `PuzzleScore` object built by
`calculatePuzzleScore`, together with its rounded bonus fields. -/
structure PuzzleScore where
  score : JSNum
  timeBonus : JSNum
  accuracyBonus : ℚ
deriving DecidableEq, Repr

/-- The difficulty-bonus lookup `{simple:0, medium:1, hard:2, ultra:3}[difficulty] || 0`. -/
def difficultyBonusOf (difficulty : String) : ℚ :=
  if difficulty = "simple" then 0
  else if difficulty = "medium" then 1
  else if difficulty = "hard" then 2
  else if difficulty = "ultra" then 3
  else 0

def calculatePuzzleScore (timeLimit timeTaken : ℚ) (attempts : ℕ)
    (difficulty : String) : PuzzleScore :=
  let baseScore : ℚ := 5
  let timeRatioVal := JSNum.divF timeTaken timeLimit
  let timeBonus := JSNum.max (.num 0) (JSNum.min (.num 3) (JSNum.mulL 3 (JSNum.subL 1 timeRatioVal)))
  let accuracyBonus : ℚ :=
    if attempts = 1 then 2 else Max.max 0 (2 - ((attempts : ℚ) - 1) * (1/2))
  let difficultyBonus := difficultyBonusOf difficulty
  let rawScore := JSNum.add (JSNum.add (JSNum.add (.num baseScore) timeBonus)
    (.num accuracyBonus)) (.num difficultyBonus)
  let score := JSNum.max (.num 1) (JSNum.min (.num 10) (JSNum.roundJS rawScore))
  { score := score
    timeBonus := JSNum.round1 timeBonus
    accuracyBonus := (round (accuracyBonus * 10) : ℚ) / 10 }

/-! ## `calculateEloChange` (`src/utils/scoring.ts`, lines 47-63)

`Math.pow(10, x)` is real exponentiation, so this one function is stated
over the reals. -/

noncomputable def calculateEloChange (currentElo puzzleRating : ℤ) (solved : Bool)
    (kFactor : ℝ) : ℤ :=
  let expectedScore : ℝ := 1 / (1 + (10 : ℝ) ^ (((puzzleRating : ℝ) - (currentElo : ℝ)) / 400))
  let actualScore : ℝ := if solved then 1 else 0
  round (kFactor * (actualScore - expectedScore))

/-! ## `calculateStreak` (`src/utils/scoring.ts`, lines 81-128)

`Date.now()` is passed in as `now`; the timezone-dependent
`Date.prototype.toDateString` is passed in as the abstract function
`toDateString`. -/

structure StreakResult where
  newStreak : ℤ
  isReset : Bool
  earnedStreak : Bool
deriving DecidableEq, Repr

def permanentStreakValues : List ℤ := [10, 20, 30, 50, 75, 100, 150, 200]

def calculateStreak (now : ℤ) (toDateString : ℤ → String)
    (currentStreak lastPlayedDate : ℤ) (sessionDuration : ℚ) : StreakResult :=
  let oneDayMs : ℚ := 24 * 60 * 60 * 1000
  let daysSinceLastPlayed : ℚ := ((now : ℚ) - (lastPlayedDate : ℚ)) / oneDayMs
  if daysSinceLastPlayed > 2 then
    let permanentStreak :=
      permanentStreakValues.foldl (fun acc val => if currentStreak ≥ val then val else acc) 0
    { newStreak := permanentStreak, isReset := true, earnedStreak := false }
  else
    let earnedStreak := sessionDuration ≥ 10
    let alreadyPlayedToday := toDateString now = toDateString lastPlayedDate
    if earnedStreak ∧ ¬alreadyPlayedToday then
      { newStreak := currentStreak + 1, isReset := false, earnedStreak := true }
    else
      { newStreak := currentStreak, isReset := false, earnedStreak := false }

/-! ## Puzzle solver (`src/hooks/usePuzzle.ts`, later variant, lines 145-255)

The chess engine (`chess.js`) is an external collaborator: positions have
an abstract type `Pos` and moves an abstract input type `M`, and the
`chess.move` call is an abstract function
`applyMove : Pos → M → Option (Pos × String)` returning the successor
position and the SAN of the move, or `none` when the move is illegal
(`chess.move` returning null or throwing).  `makeMove` first tries the
move on a copy (`testChess`) and commits it to the live board only when
its SAN matches the expected solution step. -/

structure Puzzle where
  id : String
  fen : String
  solution : List String
  difficulty : Difficulty
deriving DecidableEq, Repr

structure SolverState (Pos : Type) where
  chess : Pos
  currentMove : ℕ
  userMoves : List String
  isSolved : Bool
  isFailed : Bool
  wrongMoveCount : ℕ
deriving DecidableEq, Repr

/-- The state installed by the `useEffect` initializer / `reset`:
board loaded from the puzzle FEN, everything else zeroed. -/
def initState {Pos : Type} (pos0 : Pos) : SolverState Pos :=
  { chess := pos0, currentMove := 0, userMoves := [], isSolved := false,
    isFailed := false, wrongMoveCount := 0 }

/-- `makeMove` of the `wrongMoveCount` variant of `usePuzzle`
(lines 166-198).  Returns the updated state and the boolean result. -/
def makeMove {Pos M : Type} (applyMove : Pos → M → Option (Pos × String))
    (puzzle : Puzzle) (s : SolverState Pos) (m : M) : SolverState Pos × Bool :=
  if s.isSolved || s.isFailed then (s, false)
  else
    match applyMove s.chess m with
    | none => (s, false)
    | some (pos', moveSan) =>
      match puzzle.solution[s.currentMove]? with
      | some expectedMove =>
        if moveSan = expectedMove then
          ({ s with chess := pos',
                    userMoves := s.userMoves ++ [moveSan],
                    currentMove := s.currentMove + 1,
                    isSolved := if puzzle.solution.length ≤ s.currentMove + 1 then
                        true
                      else s.isSolved }, true)
        else
          ({ s with wrongMoveCount := s.wrongMoveCount + 1 }, false)
      | none =>
        ({ s with wrongMoveCount := s.wrongMoveCount + 1 }, false)

/-- Submitting a sequence of moves one after the other. -/
def runMoves {Pos M : Type} (applyMove : Pos → M → Option (Pos × String))
    (puzzle : Puzzle) (s : SolverState Pos) (ms : List M) : SolverState Pos :=
  ms.foldl (fun s m => (makeMove applyMove puzzle s m).1) s

/-- `Replays applyMove pos ms sans`: starting from `pos`, the move inputs
`ms` are successively legal and produce exactly the SAN strings `sans`. -/
inductive Replays {Pos M : Type} (applyMove : Pos → M → Option (Pos × String)) :
    Pos → List M → List String → Prop where
  | nil (pos : Pos) : Replays applyMove pos [] []
  | cons {pos pos' : Pos} {m : M} {san : String} {ms : List M} {sans : List String} :
      applyMove pos m = some (pos', san) →
      Replays applyMove pos' ms sans →
      Replays applyMove pos (m :: ms) (san :: sans)

/-! ### Concrete rules oracles and puzzles used in closed examples -/

/-- A one-move puzzle expecting "Qd8". -/
def demoPuzzle1 : Puzzle :=
  { id := "w", fen := "f", solution := ["Qd8"], difficulty := .simple }

/-- An oracle where every move is legal and produces SAN "Nf3". -/
def demoWrongApply (p : ℕ) (_ : ℕ) : Option (ℕ × String) :=
  some (p + 1, "Nf3")

/-- A two-move puzzle expecting "e4" then "e5". -/
def demoPuzzle2 : Puzzle :=
  { id := "w2", fen := "f", solution := ["e4", "e5"], difficulty := .medium }

/-- An oracle where every move is legal and produces the SAN the position
index calls for. -/
def demoApply (p : ℕ) (_ : ℕ) : Option (ℕ × String) :=
  some (p + 1, if p = 0 then "e4" else "e5")

/-! ## User stats and the blitz-mode updates (`src/modes/BlitzMode.tsx`)

`handleTimeout` (lines 89-127) and `handleSolved` (lines 129-181) each
read the stats singleton, rebuild it, and write it back; the stats
mutation they perform is embedded below as a pure state update. -/

structure DiffStats where
  solved : ℕ
  attempted : ℕ
deriving DecidableEq, Repr

structure DifficultyBreakdown where
  simple : DiffStats
  medium : DiffStats
  hard : DiffStats
  ultra : DiffStats
deriving DecidableEq, Repr

structure UserStats where
  totalPuzzles : ℕ
  solvedPuzzles : ℕ
  currentStreak : ℕ
  bestStreak : ℕ
  averageTime : ℚ
  accuracy : ℚ
  totalTime : ℚ
  difficultyBreakdown : DifficultyBreakdown
deriving DecidableEq, Repr

/-- `getDefaultStats` (`src/services/localStore.ts`, lines 150-166). -/
def getDefaultStats : UserStats :=
  { totalPuzzles := 0, solvedPuzzles := 0, currentStreak := 0, bestStreak := 0,
    averageTime := 0, accuracy := 0, totalTime := 0,
    difficultyBreakdown :=
      { simple := ⟨0, 0⟩, medium := ⟨0, 0⟩, hard := ⟨0, 0⟩, ultra := ⟨0, 0⟩ } }

def DifficultyBreakdown.bucket (b : DifficultyBreakdown) : Difficulty → DiffStats
  | .simple => b.simple
  | .medium => b.medium
  | .hard => b.hard
  | .ultra => b.ultra

def DifficultyBreakdown.setBucket (b : DifficultyBreakdown) :
    Difficulty → DiffStats → DifficultyBreakdown
  | .simple, v => { b with simple := v }
  | .medium, v => { b with medium := v }
  | .hard, v => { b with hard := v }
  | .ultra, v => { b with ultra := v }

/-- The stats update of `handleTimeout`: `diffBreakdown[difficulty].attempted += 1`. -/
def bumpAttempted (b : DifficultyBreakdown) (d : Difficulty) : DifficultyBreakdown :=
  b.setBucket d { b.bucket d with attempted := (b.bucket d).attempted + 1 }

/-- The breakdown update of `handleSolved`: `attempted += 1; solved += 1`. -/
def bumpSolvedAttempted (b : DifficultyBreakdown) (d : Difficulty) : DifficultyBreakdown :=
  b.setBucket d { b.bucket d with attempted := (b.bucket d).attempted + 1,
                                  solved := (b.bucket d).solved + 1 }

/-- The `setStats` argument built by `handleTimeout` (lines 100-115). -/
def timeoutStatsUpdate (d : Difficulty) (stats : UserStats) : UserStats :=
  let newTotalPuzzles := stats.totalPuzzles + 1
  let newAccuracy : ℚ := (stats.solvedPuzzles : ℚ) / (newTotalPuzzles : ℚ)
  { stats with totalPuzzles := newTotalPuzzles,
               currentStreak := 0,
               accuracy := newAccuracy,
               difficultyBreakdown := bumpAttempted stats.difficultyBreakdown d }

/-- The `setStats` argument built by `handleSolved` (lines 145-167);
`streak` is the streak state of the component, `solveTime` the elapsed time. -/
def solvedStatsUpdate (d : Difficulty) (solveTime : ℚ) (streak : ℕ)
    (stats : UserStats) : UserStats :=
  let newSolvedPuzzles := stats.solvedPuzzles + 1
  let newTotalPuzzles := stats.totalPuzzles + 1
  let newTotalTime := stats.totalTime + solveTime
  let newAccuracy : ℚ := (newSolvedPuzzles : ℚ) / (newTotalPuzzles : ℚ)
  { stats with totalPuzzles := newTotalPuzzles,
               solvedPuzzles := newSolvedPuzzles,
               currentStreak := streak + 1,
               bestStreak := Max.max stats.bestStreak (streak + 1),
               totalTime := newTotalTime,
               averageTime := newTotalTime / (newSolvedPuzzles : ℚ),
               accuracy := newAccuracy,
               difficultyBreakdown := bumpSolvedAttempted stats.difficultyBreakdown d }

/-- One blitz-round outcome: either a solve or a per-puzzle timeout. -/
inductive BlitzEvent where
  | solvedEv (d : Difficulty) (solveTime : ℚ) (streak : ℕ)
  | timeoutEv (d : Difficulty)

def blitzStep (stats : UserStats) : BlitzEvent → UserStats
  | .solvedEv d t k => solvedStatsUpdate d t k stats
  | .timeoutEv d => timeoutStatsUpdate d stats

/-- A finite sequence of blitz rounds applied to the default stats. -/
def runBlitz (evs : List BlitzEvent) : UserStats :=
  evs.foldl blitzStep getDefaultStats

/-! ## Local store and export/import (`src/services/localStore.ts`)

The IndexedDB collections relevant to export/import: `progress` is keyed
by `puzzleId` (`db.put` is an upsert preserving key position), and
`stats` / `settings` are singletons.  -/

structure PuzzleProgress where
  puzzleId : String
  solved : Bool
  attempts : ℕ
  bestTime : Option ℚ
  lastAttempt : Option ℤ
  streak : Option ℕ
deriving DecidableEq, Repr

structure GameSettings where
  theme : String
  pieceStyle : String
  timeLimit : ℕ
  difficulty : String
  soundEnabled : Bool
  animationsEnabled : Bool
  engineStrength : ℕ
deriving DecidableEq, Repr

/-- `getDefaultSettings` (`src/services/localStore.ts`, lines 179-189). -/
def getDefaultSettings : GameSettings :=
  { theme := "light", pieceStyle := "minimal", timeLimit := 60,
    difficulty := "adaptive", soundEnabled := true, animationsEnabled := true,
    engineStrength := 10 }

structure LocalStore where
  progress : List PuzzleProgress
  stats : Option UserStats
  settings : Option GameSettings
deriving DecidableEq, Repr

def emptyStore : LocalStore := { progress := [], stats := none, settings := none }

/-- `db.put` into the progress collection with `keyPath puzzleId`: replace the record
with the same key in place, or append a new one. -/
def putProgressRecord (l : List PuzzleProgress) (p : PuzzleProgress) :
    List PuzzleProgress :=
  if l.any (fun q => q.puzzleId == p.puzzleId) then
    l.map (fun q => if q.puzzleId == p.puzzleId then p else q)
  else l ++ [p]

/-- `getProgress(puzzleId)` (lines 139-142). -/
def getProgressRecord (st : LocalStore) (puzzleId : String) : Option PuzzleProgress :=
  st.progress.find? (fun q => q.puzzleId == puzzleId)

structure ExportData where
  version : String
  exportDate : String
  progress : List PuzzleProgress
  stats : UserStats
  settings : GameSettings
deriving DecidableEq, Repr

/-- `exportData()` (lines 203-217); `exportDate` stands for
`new Date().toISOString()`. -/
def exportData (exportDate : String) (st : LocalStore) : ExportData :=
  { version := "1.0.0"
    exportDate := exportDate
    progress := st.progress
    stats := st.stats.getD getDefaultStats
    settings := st.settings.getD getDefaultSettings }

/-- `importData(data)` (lines 219-236): upsert each progress record, then
overwrite the stats and settings singletons.  (The top-level-field
validation always passes for a structurally well-typed bundle.) -/
def importData (data : ExportData) (st : LocalStore) : LocalStore :=
  { st with
    progress := if data.progress.length > 0 then
        data.progress.foldl putProgressRecord st.progress
      else st.progress,
    stats := some data.stats,
    settings := some data.settings }

/-! ### Concrete store contents used in closed examples -/

/-- A concrete progress record. -/
def demoProgress : PuzzleProgress :=
  { puzzleId := "p1", solved := true, attempts := 1, bestTime := some 1500,
    lastAttempt := some 0, streak := some 3 }

/-- A concrete populated store. -/
def demoStore : LocalStore :=
  { progress := [demoProgress], stats := some getDefaultStats,
    settings := some getDefaultSettings }

/-! ## Profile service (`src/services/profileService.ts`)

The profile database is modelled as a `profile` singleton cell plus a
`fail` flag: when `fail` is set every underlying `idb` operation throws,
which is how the `try`/`catch` behavior of each service function becomes
observable. -/

structure Badge where
  id : String
  name : String
  description : String
  icon : String
  earnedAt : Option ℤ
  requirement : ℕ
deriving DecidableEq, Repr

structure UserProfile where
  level : PlayerLevel
  elo : ℤ
  league : League
  streakCount : ℕ
  lastPlayedDate : ℤ
  badges : List Badge
  totalPlayTime : ℕ
  hasCompletedTutorial : Bool
deriving DecidableEq, Repr

structure ProfileDB where
  profile : Option UserProfile
  fail : Bool
deriving DecidableEq, Repr

/-- The default profile created on first access (lines 79-88). -/
def defaultProfile (now : ℤ) : UserProfile :=
  { level := .beginner, elo := 400, league := .stone, streakCount := 0,
    lastPlayedDate := now, badges := [], totalPlayTime := 0,
    hasCompletedTutorial := false }

/-- `getUserProfile()` (lines 72-107): read-or-create; any store error is
caught and a fresh default profile is returned instead. -/
def getUserProfile (now : ℤ) (s : ProfileDB) : UserProfile × ProfileDB :=
  if s.fail then (defaultProfile now, s)
  else
    match s.profile with
    | some p => (p, s)
    | none => (defaultProfile now, { s with profile := some (defaultProfile now) })

/-- `Partial<UserProfile>` as passed to `updateUserProfile`. -/
structure ProfileUpdates where
  level : Option PlayerLevel := none
  elo : Option ℤ := none
  league : Option League := none
  streakCount : Option ℕ := none
  lastPlayedDate : Option ℤ := none
  badges : Option (List Badge) := none
  totalPlayTime : Option ℕ := none
  hasCompletedTutorial : Option Bool := none

/-- The spread `{ ...current, ...updates }`. -/
def applyUpdates (p : UserProfile) (u : ProfileUpdates) : UserProfile :=
  { level := u.level.getD p.level
    elo := u.elo.getD p.elo
    league := u.league.getD p.league
    streakCount := u.streakCount.getD p.streakCount
    lastPlayedDate := u.lastPlayedDate.getD p.lastPlayedDate
    badges := u.badges.getD p.badges
    totalPlayTime := u.totalPlayTime.getD p.totalPlayTime
    hasCompletedTutorial := u.hasCompletedTutorial.getD p.hasCompletedTutorial }

/-- `updateUserProfile(updates)` (lines 112-128): merge, recompute the
league when `elo` is among the updates, persist; store errors are
rethrown to the caller. -/
def updateUserProfile (now : ℤ) (u : ProfileUpdates) (s : ProfileDB) :
    Except String ProfileDB :=
  if s.fail then .error "failed to update user profile"
  else
    let current := (getUserProfile now s).1
    let s1 := (getUserProfile now s).2
    let merged := applyUpdates current u
    let updated := if u.elo.isSome then { merged with league := getLeagueFromElo merged.elo }
      else merged
    .ok { s1 with profile := some updated }

/-- The `badgeDefinitions` milestone table (lines 135-192), with
`earnedAt` not yet set. -/
def badgeDefinitions (streakCount : ℕ) : Option Badge :=
  if streakCount = 10 then
    some { id := "streak-10", name := "Dedicated",
           description := "Reached 10-day streak", icon := "🔥",
           earnedAt := none, requirement := 10 }
  else if streakCount = 20 then
    some { id := "streak-20", name := "Committed",
           description := "Reached 20-day streak", icon := "⭐",
           earnedAt := none, requirement := 20 }
  else if streakCount = 30 then
    some { id := "streak-30", name := "Persistent",
           description := "Reached 30-day streak", icon := "💎",
           earnedAt := none, requirement := 30 }
  else if streakCount = 50 then
    some { id := "streak-50", name := "Champion",
           description := "Reached 50-day streak", icon := "👑",
           earnedAt := none, requirement := 50 }
  else if streakCount = 75 then
    some { id := "streak-75", name := "Master",
           description := "Reached 75-day streak", icon := "🏆",
           earnedAt := none, requirement := 75 }
  else if streakCount = 100 then
    some { id := "streak-100", name := "Legend",
           description := "Reached 100-day streak", icon := "🌟",
           earnedAt := none, requirement := 100 }
  else if streakCount = 150 then
    some { id := "streak-150", name := "Grandmaster",
           description := "Reached 150-day streak", icon := "⚡",
           earnedAt := none, requirement := 150 }
  else if streakCount = 200 then
    some { id := "streak-200", name := "Immortal",
           description := "Reached 200-day streak", icon := "🔱",
           earnedAt := none, requirement := 200 }
  else none

/-- `awardBadge(streakCount)` (lines 133-217): look up the milestone,
no-op when absent or already earned, otherwise append the badge and
persist; any store error is caught and `null` returned. -/
def awardBadge (streakCount : ℕ) (now : ℤ) (s : ProfileDB) :
    Option Badge × ProfileDB :=
  match badgeDefinitions streakCount with
  | none => (none, s)
  | some badgeDefinition =>
    let profile := (getUserProfile now s).1
    let s1 := (getUserProfile now s).2
    if profile.badges.any (fun b => b.id == badgeDefinition.id) then (none, s1)
    else
      let newBadge := { badgeDefinition with earnedAt := some now }
      match updateUserProfile now { badges := some (profile.badges ++ [newBadge]) } s1 with
      | .error _ => (none, s1)
      | .ok s2 => (some newBadge, s2)

/-- Number of badges with a given id in the stored profile. -/
def storedBadgeCount (s : ProfileDB) (id : String) : ℕ :=
  match s.profile with
  | none => 0
  | some p => p.badges.countP (fun b => b.id == id)

/-! ### Concrete profile states used in closed examples -/

/-- The streak-10 milestone entry of the badge table. -/
def demoStreak10Def : Badge :=
  { id := "streak-10", name := "Dedicated",
    description := "Reached 10-day streak", icon := "🔥",
    earnedAt := none, requirement := 10 }

/-- A profile that has already earned the streak-10 badge. -/
def demoProfileWithBadge : UserProfile :=
  { defaultProfile 0 with badges := [{ demoStreak10Def with earnedAt := some 0 }] }

/-- A working store holding `demoProfileWithBadge`. -/
def demoBadgeDB : ProfileDB := { profile := some demoProfileWithBadge, fail := false }

/-- A working store with no stored profile yet. -/
def demoEmptyDB : ProfileDB := { profile := none, fail := false }

/-! ## Helper lemmas -/

theorem difficultyBonusOf_simple : difficultyBonusOf "simple" = 0 := rfl

theorem difficultyBonusOf_ultra : difficultyBonusOf "ultra" = 3 := rfl

/-! ## C6: league step function -/

/-- C6: `getLeagueFromElo` is the deterministic step function with
exclusive upper boundaries stone/bronze/silver/gold/platinum/diamond at
800/1000/1200/1400/1600/1800 and master above, and in particular maps
799 to stone, 800 to bronze, 1799 to diamond, and 1800 to master. -/
theorem getLeagueFromElo_step_function :
    (∀ e : ℤ, e < 800 → getLeagueFromElo e = .stone) ∧
    (∀ e : ℤ, 800 ≤ e → e < 1000 → getLeagueFromElo e = .bronze) ∧
    (∀ e : ℤ, 1000 ≤ e → e < 1200 → getLeagueFromElo e = .silver) ∧
    (∀ e : ℤ, 1200 ≤ e → e < 1400 → getLeagueFromElo e = .gold) ∧
    (∀ e : ℤ, 1400 ≤ e → e < 1600 → getLeagueFromElo e = .platinum) ∧
    (∀ e : ℤ, 1600 ≤ e → e < 1800 → getLeagueFromElo e = .diamond) ∧
    (∀ e : ℤ, 1800 ≤ e → getLeagueFromElo e = .master) ∧
    getLeagueFromElo 799 = .stone ∧ getLeagueFromElo 800 = .bronze ∧
    getLeagueFromElo 1799 = .diamond ∧ getLeagueFromElo 1800 = .master := by
  refine ⟨?_, ?_, ?_, ?_, ?_, ?_, ?_, by decide, by decide, by decide, by decide⟩ <;>
    intro e h1 <;> first
      | (unfold getLeagueFromElo; split_ifs <;> first | rfl | omega)
      | (intro h2; unfold getLeagueFromElo; split_ifs <;> first | rfl | omega)

/-- C6 witness: the step function evaluated at explicit elo values in
each band. -/
theorem getLeagueFromElo_step_function_witness :
    getLeagueFromElo 0 = .stone ∧ getLeagueFromElo 900 = .bronze ∧
    getLeagueFromElo 1100 = .silver ∧ getLeagueFromElo 1300 = .gold ∧
    getLeagueFromElo 1500 = .platinum ∧ getLeagueFromElo 1700 = .diamond ∧
    getLeagueFromElo 2000 = .master :=
  ⟨getLeagueFromElo_step_function.1 0 (by decide),
   getLeagueFromElo_step_function.2.1 900 (by decide) (by decide),
   getLeagueFromElo_step_function.2.2.1 1100 (by decide) (by decide),
   getLeagueFromElo_step_function.2.2.2.1 1300 (by decide) (by decide),
   getLeagueFromElo_step_function.2.2.2.2.1 1500 (by decide) (by decide),
   getLeagueFromElo_step_function.2.2.2.2.2.1 1700 (by decide) (by decide),
   getLeagueFromElo_step_function.2.2.2.2.2.2.1 2000 (by decide)⟩

/-! ## C3: puzzle score formula and the unguarded division -/

/-- C3: the spec examples evaluate as stated — `(60000, 60000, 1,
simple)` scores 7 and `(60000, 0, 1, ultra)` clamps to 10 — and with
`timeLimit = 0` and positive `timeTaken` the score is still 7; but at
the input `timeLimit = 0, timeTaken = 0` the unguarded division
`timeTaken / timeLimit` is `0/0 = NaN`, which propagates through
`Math.min`/`Math.max`/`Math.round`, so the returned score is NaN rather
than a value in `[1, 10]`. -/
theorem calculatePuzzleScore_unguarded_division :
    (calculatePuzzleScore 60000 60000 1 "simple").score = .num 7 ∧
    (calculatePuzzleScore 60000 0 1 "ultra").score = .num 10 ∧
    (calculatePuzzleScore 0 5000 1 "simple").score = .num 7 ∧
    (calculatePuzzleScore 0 0 1 "simple").score = .nan := by
  refine ⟨?_, ?_, ?_, ?_⟩ <;>
    norm_num [calculatePuzzleScore, JSNum.divF, JSNum.subL, JSNum.mulL, JSNum.min,
      JSNum.max, JSNum.add, JSNum.roundJS, difficultyBonusOf_simple,
      difficultyBonusOf_ultra]

/-! ## C4: ELO delta -/

/-- C4: `calculateEloChange` returns `round (kFactor * (actual -
expected))` with the logistic expected score and no floor or ceiling,
and in particular `calculateEloChange 1200 1200 true = 16` and
`calculateEloChange 1200 1200 false = -16`. -/
theorem calculateEloChange_formula :
    (∀ (c p : ℤ) (s : Bool) (k : ℝ),
      calculateEloChange c p s k =
        round (k * ((if s then (1 : ℝ) else 0) -
          1 / (1 + (10 : ℝ) ^ (((p : ℝ) - (c : ℝ)) / 400))))) ∧
    calculateEloChange 1200 1200 true 32 = 16 ∧
    calculateEloChange 1200 1200 false 32 = -16 := by
  refine ⟨fun c p s k => rfl, ?_, ?_⟩ <;>
    · unfold calculateEloChange
      norm_num [Real.rpow_zero]
      try rw [show (-16 : ℝ) = ((-16 : ℤ) : ℝ) by norm_num, round_intCast]

/-! ## C5: streak computation -/

/-- C5: when more than 2 days have elapsed since `lastPlayedDate`,
`calculateStreak` resets to the largest milestone of
`{10,20,30,50,75,100,150,200}` that is at most `currentStreak` (0 when
none), with `isReset` true and `earnedStreak` false; otherwise it
increments exactly when the session lasted at least 10 minutes and the
local calendar date of `lastPlayedDate` differs from the current one, and leaves
the streak unchanged in all other cases. -/
theorem calculateStreak_spec (now : ℤ) (toDS : ℤ → String) (c last : ℤ) (dur : ℚ) :
    (((now : ℚ) - (last : ℚ)) / (24 * 60 * 60 * 1000) > 2 →
      (calculateStreak now toDS c last dur).isReset = true ∧
      (calculateStreak now toDS c last dur).earnedStreak = false ∧
      (((calculateStreak now toDS c last dur).newStreak = 0 ∧
          ∀ v ∈ permanentStreakValues, ¬ v ≤ c) ∨
        ((calculateStreak now toDS c last dur).newStreak ∈ permanentStreakValues ∧
          (calculateStreak now toDS c last dur).newStreak ≤ c ∧
          ∀ v ∈ permanentStreakValues, v ≤ c →
            v ≤ (calculateStreak now toDS c last dur).newStreak))) ∧
    (¬ ((now : ℚ) - (last : ℚ)) / (24 * 60 * 60 * 1000) > 2 →
      dur ≥ 10 → toDS now ≠ toDS last →
      calculateStreak now toDS c last dur =
        { newStreak := c + 1, isReset := false, earnedStreak := true }) ∧
    (¬ ((now : ℚ) - (last : ℚ)) / (24 * 60 * 60 * 1000) > 2 →
      (dur < 10 ∨ toDS now = toDS last) →
      calculateStreak now toDS c last dur =
        { newStreak := c, isReset := false, earnedStreak := false }) := by
  refine ⟨?_, ?_, ?_⟩
  · intro h
    unfold calculateStreak
    rw [if_pos h]
    simp only [permanentStreakValues, List.foldl_cons, List.foldl_nil]
    refine ⟨trivial, trivial, ?_⟩
    split_ifs <;> simp_all [permanentStreakValues]
  · intro h h10 hdate
    unfold calculateStreak
    rw [if_neg h, if_pos ⟨h10, hdate⟩]
  · intro h hother
    unfold calculateStreak
    rw [if_neg h, if_neg ?_]
    rcases hother with hlt | heq
    · exact fun hc => absurd hc.1 (not_le.mpr hlt)
    · exact fun hc => hc.2 heq

/-- C5 witness: the reset branch at streak 22 four days after last play
(decays to milestone 20), the increment branch, and the no-change branch,
all at explicit inputs. -/
theorem calculateStreak_spec_witness :
    (calculateStreak 400000000 (fun t => toString (t / 86400000)) 22 0 20).isReset
        = true ∧
    calculateStreak 100000000 (fun t => toString (t / 86400000)) 5 0 20 =
      { newStreak := 6, isReset := false, earnedStreak := true } ∧
    calculateStreak 100000000 (fun t => toString (t / 86400000)) 5 0 5 =
      { newStreak := 5, isReset := false, earnedStreak := false } := by
  refine ⟨((calculateStreak_spec 400000000 (fun t => toString (t / 86400000)) 22 0
      20).1 (by norm_num)).1, ?_, ?_⟩
  · exact (calculateStreak_spec 100000000 (fun t => toString (t / 86400000)) 5 0
      20).2.1 (by norm_num) (by norm_num) (by decide)
  · exact (calculateStreak_spec 100000000 (fun t => toString (t / 86400000)) 5 0
      5).2.2 (by norm_num) (Or.inl (by norm_num))

/-! ## C1: a wrong but legal move is counted, not committed -/

/-- C1: in an in-progress attempt, a legal move whose SAN differs from
the expected solution step leaves the board, cursor and accepted moves
unchanged, increments `wrongMoveCount` by exactly 1, and keeps the
attempt in progress (neither solved nor failed); `makeMove` returns
`false`. -/
theorem makeMove_wrong_move {Pos M : Type}
    (applyMove : Pos → M → Option (Pos × String)) (puzzle : Puzzle)
    (s : SolverState Pos) (m : M) (pos' : Pos) (san expected : String)
    (hs : s.isSolved = false) (hf : s.isFailed = false)
    (hlegal : applyMove s.chess m = some (pos', san))
    (hexp : puzzle.solution[s.currentMove]? = some expected)
    (hne : san ≠ expected) :
    (makeMove applyMove puzzle s m).1.chess = s.chess ∧
    (makeMove applyMove puzzle s m).1.currentMove = s.currentMove ∧
    (makeMove applyMove puzzle s m).1.userMoves = s.userMoves ∧
    (makeMove applyMove puzzle s m).1.wrongMoveCount = s.wrongMoveCount + 1 ∧
    (makeMove applyMove puzzle s m).1.isSolved = false ∧
    (makeMove applyMove puzzle s m).1.isFailed = false ∧
    (makeMove applyMove puzzle s m).2 = false := by
  simp [makeMove, hs, hf, hlegal, hexp, hne]

/-- C1 witness: a tiny concrete rules oracle where every move is legal
with SAN "Nf3", against a puzzle expecting "Qd8" as its first step. -/
theorem makeMove_wrong_move_witness :
    (makeMove demoWrongApply demoPuzzle1 (initState 0) 0).1.chess = 0 ∧
    (makeMove demoWrongApply demoPuzzle1 (initState 0) 0).1.currentMove = 0 ∧
    (makeMove demoWrongApply demoPuzzle1 (initState 0) 0).1.userMoves = [] ∧
    (makeMove demoWrongApply demoPuzzle1 (initState 0) 0).1.wrongMoveCount = 1 ∧
    (makeMove demoWrongApply demoPuzzle1 (initState 0) 0).1.isSolved = false ∧
    (makeMove demoWrongApply demoPuzzle1 (initState 0) 0).1.isFailed = false ∧
    (makeMove demoWrongApply demoPuzzle1 (initState 0) 0).2 = false :=
  makeMove_wrong_move demoWrongApply demoPuzzle1
    (initState 0) 0 1 "Nf3" "Qd8" rfl rfl rfl rfl (by decide)

/-! ## C2: replaying the solution solves the puzzle -/

theorem replays_length {Pos M : Type} {applyMove : Pos → M → Option (Pos × String)}
    {pos : Pos} {ms : List M} {sans : List String}
    (h : Replays applyMove pos ms sans) : ms.length = sans.length := by
  induction h with
  | nil => rfl
  | cons hstep htail ih => simp [ih]

theorem replays_take {Pos M : Type} {applyMove : Pos → M → Option (Pos × String)}
    {pos : Pos} {ms : List M} {sans : List String}
    (h : Replays applyMove pos ms sans) (k : ℕ) :
    Replays applyMove pos (ms.take k) (sans.take k) := by
  induction h generalizing k with
  | nil p => cases k <;> exact Replays.nil p
  | cons hstep htail ih =>
    cases k with
    | zero => exact Replays.nil _
    | succ k => exact Replays.cons hstep (ih k)

/-- Running a segment of correct moves from a consistent solver state:
every move commits, the wrong-move counter and failure flag stay put,
and `isSolved` is set exactly when the segment reaches the end of the
solution. -/
theorem runMoves_segment {Pos M : Type}
    (applyMove : Pos → M → Option (Pos × String)) (puzzle : Puzzle)
    {pos : Pos} {ms : List M} {sans : List String}
    (hrep : Replays applyMove pos ms sans) :
    ∀ (rest : List String) (s : SolverState Pos),
      s.chess = pos → s.isSolved = false → s.isFailed = false →
      s.currentMove = s.userMoves.length →
      puzzle.solution = s.userMoves ++ sans ++ rest →
      (runMoves applyMove puzzle s ms).userMoves = s.userMoves ++ sans ∧
      (runMoves applyMove puzzle s ms).currentMove = s.currentMove + sans.length ∧
      (runMoves applyMove puzzle s ms).wrongMoveCount = s.wrongMoveCount ∧
      (runMoves applyMove puzzle s ms).isFailed = false ∧
      (runMoves applyMove puzzle s ms).isSolved = (!sans.isEmpty && rest.isEmpty) := by
  induction hrep with
  | nil pos =>
    intro rest s hchess hsolved hfailed hcur hsol
    simp [runMoves, hsolved, hfailed]
  | cons hstep htail ih =>
    rename_i pos pos' m san ms' sans'
    intro rest s hchess hsolved hfailed hcur hsol
    have hget : puzzle.solution[s.currentMove]? = some san := by
      rw [hsol, hcur]
      simp [List.getElem?_append_right, List.getElem_append_right]
    have hstep1 : makeMove applyMove puzzle s m =
        ({ s with chess := pos',
                  userMoves := s.userMoves ++ [san],
                  currentMove := s.currentMove + 1,
                  isSolved := if puzzle.solution.length ≤ s.currentMove + 1 then true
                    else s.isSolved }, true) := by
      rw [← hchess] at hstep
      simp [makeMove, hsolved, hfailed, hstep, hget]
    have hrun : runMoves applyMove puzzle s (m :: ms') =
        runMoves applyMove puzzle (makeMove applyMove puzzle s m).1 ms' := rfl
    rw [hrun, hstep1]
    by_cases hterm : sans' = [] ∧ rest = []
    · obtain ⟨hsans, hrest⟩ := hterm
      subst hsans hrest
      have hmsnil : ms' = [] := by
        have h0 := replays_length htail
        exact List.length_eq_zero.mp (by simpa using h0)
      subst hmsnil
      have hlen : puzzle.solution.length = s.currentMove + 1 := by
        rw [hsol, hcur]; simp
      simp [runMoves, hlen, hfailed]
    · have hlen2 : ¬ puzzle.solution.length ≤ s.currentMove + 1 := by
        rw [hsol, hcur]
        simp only [List.length_append, List.length_cons]
        rcases (not_and_or.mp hterm) with h | h
        · have : sans' ≠ [] := h
          have : 0 < sans'.length := List.length_pos.mpr this
          omega
        · have : rest ≠ [] := h
          have : 0 < rest.length := List.length_pos.mpr this
          omega
      rw [if_neg hlen2, hsolved]
      have := ih rest
        { s with chess := pos', userMoves := s.userMoves ++ [san],
                 currentMove := s.currentMove + 1, isSolved := false }
        rfl rfl hfailed (by simp [hcur]) (by simp [hsol])
      refine ⟨?_, ?_, ?_, ?_, ?_⟩
      · rw [this.1]; simp
      · rw [this.2.1]; simp; omega
      · exact this.2.2.1
      · exact this.2.2.2.1
      · rw [this.2.2.2.2]
        rcases (not_and_or.mp hterm) with h | h <;> simp_all

/-- C2: replaying exactly the solution sequence from the initial state:
after each proper prefix of `k` moves the attempt is still in progress
with `acceptedMoves = solution.take k`, cursor `k` and `wrongMoveCount`
0, and after the final move the attempt is Solved, still with
`wrongMoveCount` 0. -/
theorem runMoves_solution_solves {Pos M : Type}
    (applyMove : Pos → M → Option (Pos × String)) (puzzle : Puzzle)
    (pos0 : Pos) (ms : List M)
    (hrep : Replays applyMove pos0 ms puzzle.solution)
    (hne : puzzle.solution ≠ []) :
    ∀ k ≤ ms.length,
      (runMoves applyMove puzzle (initState pos0) (ms.take k)).userMoves =
          puzzle.solution.take k ∧
      (runMoves applyMove puzzle (initState pos0) (ms.take k)).currentMove = k ∧
      (runMoves applyMove puzzle (initState pos0) (ms.take k)).wrongMoveCount = 0 ∧
      (runMoves applyMove puzzle (initState pos0) (ms.take k)).isFailed = false ∧
      (runMoves applyMove puzzle (initState pos0) (ms.take k)).isSolved =
          decide (k = ms.length) := by
  intro k hk
  have hlen : ms.length = puzzle.solution.length := replays_length hrep
  have hseg := runMoves_segment applyMove puzzle (replays_take hrep k)
    (puzzle.solution.drop k) (initState pos0) rfl rfl rfl rfl
    (by simp [initState, List.take_append_drop])
  have hlp : 0 < puzzle.solution.length := List.length_pos.mpr hne
  refine ⟨by simpa [initState] using hseg.1, ?_,
    by simpa [initState] using hseg.2.2.1, hseg.2.2.2.1, ?_⟩
  · rw [hseg.2.1]
    simp [initState, List.length_take]
    omega
  · rw [hseg.2.2.2.2]
    by_cases hkl : k = ms.length
    · have h1 : puzzle.solution.drop k = [] := by
        rw [List.drop_eq_nil_iff]; omega
      have h2 : (puzzle.solution.take k).isEmpty = false := by
        rw [Bool.eq_false_iff]
        intro hemp
        rw [List.isEmpty_iff, List.take_eq_nil_iff] at hemp
        rcases hemp with h0 | h0
        · omega
        · exact hne h0
      rw [h2, h1]
      simp [hkl]
    · have h1 : (puzzle.solution.drop k).isEmpty = false := by
        rw [Bool.eq_false_iff]
        intro hemp
        rw [List.isEmpty_iff, List.drop_eq_nil_iff] at hemp
        omega
      rw [h1]
      simp [hkl]

/-- C2 witness: a two-move puzzle replayed through a concrete rules
oracle; after move 1 the attempt is in progress with cursor 1, after
move 2 it is Solved with `wrongMoveCount` 0. -/
theorem runMoves_solution_solves_witness :
    (runMoves demoApply demoPuzzle2 (initState 0) ([0, 0].take 1)).currentMove = 1 ∧
    (runMoves demoApply demoPuzzle2 (initState 0) ([0, 0].take 1)).isSolved = false ∧
    (runMoves demoApply demoPuzzle2 (initState 0) ([0, 0].take 2)).isSolved = true ∧
    (runMoves demoApply demoPuzzle2 (initState 0) ([0, 0].take 2)).wrongMoveCount = 0 := by
  have hrep : Replays demoApply 0 [0, 0] demoPuzzle2.solution :=
    Replays.cons (show demoApply 0 0 = some (1, "e4") from rfl)
      (Replays.cons (show demoApply 1 0 = some (2, "e5") from rfl)
        (Replays.nil 2))
  have h := runMoves_solution_solves demoApply demoPuzzle2 0 [0, 0] hrep (by decide)
  have h1 := h 1 (by decide)
  have h2 := h 2 (by decide)
  exact ⟨h1.2.1, by rw [h1.2.2.2.2]; decide, by rw [h2.2.2.2.2]; decide, h2.2.2.1⟩

/-! ## C9: blitz stats invariant -/

/-- The invariant of §3: solved counters never exceed attempt counters,
globally and per difficulty bucket. -/
def statsInvariant (s : UserStats) : Prop :=
  s.solvedPuzzles ≤ s.totalPuzzles ∧
  ∀ d, (s.difficultyBreakdown.bucket d).solved ≤ (s.difficultyBreakdown.bucket d).attempted

theorem statsInvariant_blitzStep (s : UserStats) (e : BlitzEvent)
    (h : statsInvariant s) : statsInvariant (blitzStep s e) := by
  have h1 := h.1
  cases e with
  | solvedEv d t k =>
    refine ⟨by simp [blitzStep, solvedStatsUpdate]; omega, ?_⟩
    intro e
    have hb := h.2 e
    have hbd := h.2 d
    cases d <;> cases e <;>
      simp [blitzStep, solvedStatsUpdate, bumpSolvedAttempted,
        DifficultyBreakdown.setBucket, DifficultyBreakdown.bucket] at hb hbd ⊢ <;>
      omega
  | timeoutEv d =>
    refine ⟨by simp [blitzStep, timeoutStatsUpdate]; omega, ?_⟩
    intro e
    have hb := h.2 e
    have hbd := h.2 d
    cases d <;> cases e <;>
      simp [blitzStep, timeoutStatsUpdate, bumpAttempted,
        DifficultyBreakdown.setBucket, DifficultyBreakdown.bucket] at hb hbd ⊢ <;>
      omega

theorem statsInvariant_foldl : ∀ (evs : List BlitzEvent) (s : UserStats),
    statsInvariant s → statsInvariant (evs.foldl blitzStep s)
  | [], _, h => h
  | e :: evs, s, h => statsInvariant_foldl evs _ (statsInvariant_blitzStep s e h)

/-- C9: starting from the default stats, after any finite sequence of
blitz-round solved/timeout stats updates, `solvedPuzzles ≤ totalPuzzles`
and every difficulty bucket has `solved ≤ attempted`. -/
theorem runBlitz_invariant (evs : List BlitzEvent) :
    (runBlitz evs).solvedPuzzles ≤ (runBlitz evs).totalPuzzles ∧
    ∀ d, ((runBlitz evs).difficultyBreakdown.bucket d).solved ≤
        ((runBlitz evs).difficultyBreakdown.bucket d).attempted :=
  statsInvariant_foldl evs getDefaultStats
    ⟨Nat.le_refl 0, fun d => by
      cases d <;> simp [getDefaultStats, DifficultyBreakdown.bucket]⟩

/-! ## C8: export/import round trip -/

theorem foldl_putProgressRecord_disjoint :
    ∀ (l acc : List PuzzleProgress),
      (∀ p ∈ l, ∀ q ∈ acc, ¬ q.puzzleId = p.puzzleId) →
      (l.map PuzzleProgress.puzzleId).Nodup →
      l.foldl putProgressRecord acc = acc ++ l := by
  intro l
  induction l with
  | nil => intro acc hdisj hnd; simp
  | cons p l ih =>
    intro acc hdisj hnd
    have hany : acc.any (fun q => q.puzzleId == p.puzzleId) = false := by
      rw [List.any_eq_false]
      intro q hq
      simpa using hdisj p (by simp) q hq
    have hput : putProgressRecord acc p = acc ++ [p] := by
      simp [putProgressRecord, hany]
    rw [List.foldl_cons, hput, ih (acc ++ [p]) ?_ ?_]
    · simp
    · intro r hr q hq
      rcases List.mem_append.mp hq with hqa | hqp
      · exact hdisj r (by simp [hr]) q hqa
      · have hqp2 : q = p := by simpa using hqp
        subst hqp2
        intro hid
        have : r.puzzleId ∈ l.map PuzzleProgress.puzzleId :=
          List.mem_map.mpr ⟨r, hr, rfl⟩
        rw [← hid] at this
        exact (List.nodup_cons.mp hnd).1 this
    · exact (List.nodup_cons.mp hnd).2

theorem find?_of_nodup_keys :
    ∀ (l : List PuzzleProgress),
      (l.map PuzzleProgress.puzzleId).Nodup →
      ∀ p ∈ l, l.find? (fun q => q.puzzleId == p.puzzleId) = some p := by
  intro l
  induction l with
  | nil => intro _ p hp; exact absurd hp (List.not_mem_nil p)
  | cons h t ih =>
    intro hnd p hp
    rcases List.mem_cons.mp hp with rfl | hpt
    · simp [List.find?_cons]
    · have hneq : (h.puzzleId == p.puzzleId) = false := by
        rw [beq_eq_false_iff_ne]
        intro hid
        have : p.puzzleId ∈ t.map PuzzleProgress.puzzleId :=
          List.mem_map.mpr ⟨p, hpt, rfl⟩
        rw [← hid] at this
        exact (List.nodup_cons.mp hnd).1 this
      rw [List.find?_cons, hneq]
      exact ih (List.nodup_cons.mp hnd).2 p hpt

/-- C8: exporting a store whose progress collection has no duplicate
keys and importing the bundle into an empty store reproduces the stats
and settings singletons of the bundle (and hence of the source store
when they were present), and every progress record of the bundle is
retrievable by its puzzle id. -/
theorem exportData_importData_roundtrip (st : LocalStore) (d : String)
    (hnd : (st.progress.map PuzzleProgress.puzzleId).Nodup) :
    (importData (exportData d st) emptyStore).stats = some (exportData d st).stats ∧
    (importData (exportData d st) emptyStore).settings = some (exportData d st).settings ∧
    (∀ s, st.stats = some s →
      (importData (exportData d st) emptyStore).stats = some s) ∧
    (∀ g, st.settings = some g →
      (importData (exportData d st) emptyStore).settings = some g) ∧
    (∀ p ∈ (exportData d st).progress,
      getProgressRecord (importData (exportData d st) emptyStore) p.puzzleId = some p) := by
  refine ⟨rfl, rfl, ?_, ?_, ?_⟩
  · intro s hs
    simp [importData, exportData, hs]
  · intro g hg
    simp [importData, exportData, hg]
  · intro p hp
    have hp2 : p ∈ st.progress := hp
    have hlp : 0 < st.progress.length := List.length_pos.mpr (by
      intro hnil
      rw [hnil] at hp2
      exact (List.not_mem_nil p) hp2)
    have hfold : st.progress.foldl putProgressRecord emptyStore.progress = st.progress := by
      rw [foldl_putProgressRecord_disjoint st.progress emptyStore.progress
        (by intro a ha q hq; exact absurd hq (List.not_mem_nil q)) hnd]
      simp [emptyStore]
    simp only [getProgressRecord, importData, exportData, emptyStore]
    rw [if_pos hlp]
    simp only [emptyStore] at hfold
    rw [hfold]
    exact find?_of_nodup_keys st.progress hnd p hp2

/-- C8 witness: a concrete one-record store round-trips — the record is
retrievable by id and the singletons are reproduced. -/
theorem exportData_importData_roundtrip_witness :
    getProgressRecord (importData (exportData "2024" demoStore) emptyStore) "p1" =
        some demoProgress ∧
    (importData (exportData "2024" demoStore) emptyStore).stats =
        some getDefaultStats ∧
    (importData (exportData "2024" demoStore) emptyStore).settings =
        some getDefaultSettings := by
  have h := exportData_importData_roundtrip demoStore "2024"
    (by simp [demoStore])
  refine ⟨?_, h.2.2.1 getDefaultStats rfl, h.2.2.2.1 getDefaultSettings rfl⟩
  have hm : demoProgress ∈ (exportData "2024" demoStore).progress := by
    simp [exportData, demoStore]
  have := h.2.2.2.2 demoProgress hm
  simpa [demoProgress] using this

/-! ## C7: badge awarding is idempotent -/

/-- C7: awarding a milestone badge already present in the stored profile
returns null and leaves the store unchanged, and awarding `streak-10`
twice to a store that did not have it yields exactly one badge with id
`streak-10` (the second call returning null). -/
theorem awardBadge_idempotent :
    (∀ (n : ℕ) (now : ℤ) (s : ProfileDB) (bdef : Badge) (p : UserProfile),
      badgeDefinitions n = some bdef → s.fail = false → s.profile = some p →
      p.badges.any (fun b => b.id == bdef.id) = true →
      awardBadge n now s = (none, s)) ∧
    (∀ (t1 t2 : ℤ) (s : ProfileDB), s.fail = false →
      storedBadgeCount s "streak-10" = 0 →
      storedBadgeCount (awardBadge 10 t2 (awardBadge 10 t1 s).2).2 "streak-10" = 1 ∧
      (awardBadge 10 t2 (awardBadge 10 t1 s).2).1 = none) := by
  constructor
  · intro n now s bdef p hbd hfail hprof hany
    simp [awardBadge, hbd, getUserProfile, hfail, hprof, hany]
  · intro t1 t2 s hfail hcount
    cases hprof : s.profile with
    | none =>
      simp [awardBadge, badgeDefinitions, getUserProfile, updateUserProfile,
        applyUpdates, defaultProfile, storedBadgeCount, hfail, hprof]
    | some p =>
      have hc0 : p.badges.countP (fun b => b.id == "streak-10") = 0 := by
        simpa [storedBadgeCount, hprof] using hcount
      have hany : p.badges.any (fun b => b.id == "streak-10") = false :=
        List.any_eq_false.mpr (List.countP_eq_zero.mp hc0)
      simp [awardBadge, badgeDefinitions, getUserProfile, updateUserProfile,
        applyUpdates, storedBadgeCount, hfail, hprof, hany,
        List.countP_append, hc0]

/-- C7 witness: awarding streak-10 to a profile that already holds it is
a no-op returning null, and awarding it twice from an empty store leaves
exactly one streak-10 badge. -/
theorem awardBadge_idempotent_witness :
    awardBadge 10 5 demoBadgeDB = (none, demoBadgeDB) ∧
    storedBadgeCount (awardBadge 10 2 (awardBadge 10 1 demoEmptyDB).2).2
        "streak-10" = 1 := by
  constructor
  · exact awardBadge_idempotent.1 10 5 demoBadgeDB demoStreak10Def
      demoProfileWithBadge rfl rfl rfl (by decide)
  · exact (awardBadge_idempotent.2 1 2 demoEmptyDB rfl rfl).1

/-! ## C10: persistence failures in the profile service -/

/-- C10 counterexample: with a store whose reads/writes throw,
`getUserProfile` does not surface the failure — it returns a freshly
fabricated default profile as an ordinary value — and `awardBadge`
likewise returns an ordinary null result. -/
theorem getUserProfile_swallows_failure :
    getUserProfile 0 { profile := none, fail := true } =
      (defaultProfile 0, { profile := none, fail := true }) ∧
    (awardBadge 10 0 { profile := none, fail := true }).1 = none := by
  constructor
  · rfl
  · rfl

/-- C10 amended: `updateUserProfile` (and with it `setPlayerLevel`,
`completeTutorial`) rethrows persistence failures to its caller, while
`getUserProfile` swallows them and returns a fresh default profile and
`awardBadge` swallows them and returns null, leaving the store
untouched. -/
theorem profileService_error_propagation :
    ∀ (now : ℤ) (u : ProfileUpdates) (n : ℕ) (s : ProfileDB), s.fail = true →
      updateUserProfile now u s = .error "failed to update user profile" ∧
      getUserProfile now s = (defaultProfile now, s) ∧
      awardBadge n now s = (none, s) := by
  intro now u n s hfail
  refine ⟨by simp [updateUserProfile, hfail], by simp [getUserProfile, hfail], ?_⟩
  cases hbd : badgeDefinitions n with
  | none => simp [awardBadge, hbd]
  | some bdef =>
    simp [awardBadge, hbd, getUserProfile, updateUserProfile, hfail, defaultProfile]

/-- C10 amended witness: the three behaviors at a concrete failing
store. -/
theorem profileService_error_propagation_witness :
    updateUserProfile 0 {} { profile := none, fail := true } =
      .error "failed to update user profile" ∧
    getUserProfile 0 { profile := none, fail := true } =
      (defaultProfile 0, { profile := none, fail := true }) ∧
    awardBadge 10 0 { profile := none, fail := true } =
      (none, { profile := none, fail := true }) :=
  profileService_error_propagation 0 {} 10 { profile := none, fail := true } rfl

end DabaaGO
